import Mathlib

/-!
Shallow embedding of the biriGov healthcare-claims validation backend
(`apps/api/src`): data models (pydantic models and enums), the AI
orchestration workflow, the mock scenario selectors, the storage layer
over a key-value/document store state, and the session cost ledger.

Conventions of the embedding:
* Python floats are modelled as rationals (ℚ); the numeric values in this
  code are small decimal constants, on which rational arithmetic agrees
  with the source arithmetic.
* `round(x, n)` is modelled as `⌊10^n * x + 1/2⌋ / 10^n`.  Python uses
  banker's rounding, which differs only at exact midpoints; every bound
  proved below is unaffected.
* Fallible Python code (pydantic validation, enum conversion, attribute
  lookup, external API calls) is modelled with `Option` / `Except`.
* Wall-clock values (datetimes, random delays, benign logging) are not
  observable in any claim and are omitted; datetime fields of the models
  are omitted for the same reason.
* The pydantic models are declared with `use_enum_values = True` under
  pydantic v1 (`BaseSettings`, `@validator`, `parse_obj`), so a parsed
  model stores an enum field as its plain string value.  The embedding
  therefore keeps `HealthcareClaim.priority` as that plain string, and an
  attribute access `.value` on it is an `AttributeError`.  (`status` is
  also stored as a string by `parse_obj`, but the handlers later assign
  enum members to it directly; the embedding keeps it as the enum, which
  is faithful on every path a theorem below exercises.)
* The modules obtain their logger from the stdlib `logging.getLogger`,
  but several log calls pass structlog-style keyword arguments.  For a
  disabled level (INFO by default) the call is a no-op, but its argument
  expressions are still evaluated; for an enabled level (WARNING, ERROR)
  `Logger._log` rejects the unexpected keyword arguments with a
  `TypeError`.
-/

namespace BiriGov

/-- Application settings relevant to the embedded code
(`config/settings.py`), with the source defaults. -/
structure Settings where
  MAX_DEMO_BUDGET_USD : ℚ := 50
  BUDGET_WARNING_THRESHOLD_USD : ℚ := 45
  DEBUG : Bool := false
deriving DecidableEq

/-- The default settings instance (`get_settings()` with no overrides). -/
def defaultSettings : Settings := {}

/-- `ClaimPriority` enum (`models/healthcare_claim.py`). -/
inductive ClaimPriority
  | routine
  | urgent
  | emergency
deriving DecidableEq

/-- The `.value` string of a `ClaimPriority` member. -/
def ClaimPriority.value : ClaimPriority → String
  | .routine => "routine"
  | .urgent => "urgent"
  | .emergency => "emergency"

/-- `ClaimPriority(s)`: conversion from a value string, `none` on failure. -/
def ClaimPriority.ofString (s : String) : Option ClaimPriority :=
  if s = "routine" then some .routine
  else if s = "urgent" then some .urgent
  else if s = "emergency" then some .emergency
  else none

/-- `ClaimStatus` enum (`models/healthcare_claim.py`). -/
inductive ClaimStatus
  | submitted
  | processing
  | ai_review
  | approved
  | denied
  | requires_human_review
deriving DecidableEq

/-- The `.value` string of a `ClaimStatus` member. -/
def ClaimStatus.value : ClaimStatus → String
  | .submitted => "submitted"
  | .processing => "processing"
  | .ai_review => "ai_review"
  | .approved => "approved"
  | .denied => "denied"
  | .requires_human_review => "requires_human_review"

/-- `ClaimStatus(s)`: conversion from a value string, `none` on failure. -/
def ClaimStatus.ofString (s : String) : Option ClaimStatus :=
  if s = "submitted" then some .submitted
  else if s = "processing" then some .processing
  else if s = "ai_review" then some .ai_review
  else if s = "approved" then some .approved
  else if s = "denied" then some .denied
  else if s = "requires_human_review" then some .requires_human_review
  else none

/-- `ValidationStatus` enum (`models/validation_result.py`).  Its only
members are the five below; in particular there is no
`REQUIRES_HUMAN_REVIEW` member. -/
inductive ValidationStatus
  | approved
  | denied
  | partial_approval
  | compliance_violation
  | insufficient_data
deriving DecidableEq

/-- The `.value` string of a `ValidationStatus` member. -/
def ValidationStatus.value : ValidationStatus → String
  | .approved => "approved"
  | .denied => "denied"
  | .partial_approval => "partial_approval"
  | .compliance_violation => "compliance_violation"
  | .insufficient_data => "insufficient_data"

/-- `ValidationStatus(s)`: value-based enum conversion; `none` models the
`ValueError` Python raises for a string that is no member value. -/
def ValidationStatus.ofString (s : String) : Option ValidationStatus :=
  if s = "approved" then some .approved
  else if s = "denied" then some .denied
  else if s = "partial_approval" then some .partial_approval
  else if s = "compliance_violation" then some .compliance_violation
  else if s = "insufficient_data" then some .insufficient_data
  else none

/-- Attribute lookup `ValidationStatus.<NAME>` on the enum class; `none`
models the `AttributeError` Python raises for a missing member name. -/
def ValidationStatus.memberNamed (s : String) : Option ValidationStatus :=
  if s = "APPROVED" then some .approved
  else if s = "DENIED" then some .denied
  else if s = "PARTIAL_APPROVAL" then some .partial_approval
  else if s = "COMPLIANCE_VIOLATION" then some .compliance_violation
  else if s = "INSUFFICIENT_DATA" then some .insufficient_data
  else none

/-- Python exception outcomes distinguished by the embedding. -/
inductive PyError
  | valueError
  | attributeError
  | typeError
  | apiError
deriving DecidableEq

/-- `round(q, 1)` (half up; see the header note on banker's rounding). -/
def round1 (q : ℚ) : ℚ := (⌊10 * q + 1/2⌋ : ℤ) / 10

/-- `round(q, 3)` (half up; see the header note on banker's rounding). -/
def round3 (q : ℚ) : ℚ := (⌊1000 * q + 1/2⌋ : ℤ) / 1000

/-- Split a character list at a separator character, Python
`str.split(sep)` for a one-character separator. -/
def charSplit (sep : Char) : List Char → List (List Char)
  | [] => [[]]
  | c :: cs =>
    let r := charSplit sep cs
    if c = sep then [] :: r
    else
      match r with
      | t :: ts => (c :: t) :: ts
      | [] => [[c]]

/-- Lower-casing, `str.lower()`. -/
def strToLower (s : String) : String := String.mk (s.toList.map Char.toLower)

/-- The last `_`-separated token of a string, `s.split(sep)[-1]` with a
`_` separator. -/
def lastUnderscoreToken (s : String) : String :=
  String.mk ((charSplit '_' s.toList).getLastD [])

/-- Pattern `^TAG_\d{8}_\d{3}$` used for claim ids (`TAG = CLAIM`) and
result ids (`TAG = RESULT`). -/
def matchIdPattern (tag : String) (s : String) : Bool :=
  match charSplit '_' s.toList with
  | [p, d8, d3] =>
    p == tag.toList && d8.length == 8 && d8.all Char.isDigit
      && d3.length == 3 && d3.all Char.isDigit
  | _ => false

/-- Pattern `^DEMO_PATIENT_\d+$`. -/
def matchPatientId (s : String) : Bool :=
  match charSplit '_' s.toList with
  | [p, q, ds] =>
    p == "DEMO".toList && q == "PATIENT".toList
      && ds.length ≥ 1 && ds.all Char.isDigit
  | _ => false

/-- Pattern `^PROV_\d+$`. -/
def matchProviderId (s : String) : Bool :=
  match charSplit '_' s.toList with
  | [p, ds] => p == "PROV".toList && ds.length ≥ 1 && ds.all Char.isDigit
  | _ => false

/-- Pattern `^\d{5}$` for CPT/HCPCS procedure codes. -/
def matchProcedureCode (s : String) : Bool :=
  s.toList.length == 5 && s.toList.all Char.isDigit

/-- Pattern `^[A-Z]\d{2}\.\d$` for ICD-10 diagnosis codes. -/
def matchDiagnosisCode (s : String) : Bool :=
  match s.toList with
  | [a, b, c, dot, d] =>
    ('A' ≤ a && a ≤ 'Z') && b.isDigit && c.isDigit
      && dot == '.' && d.isDigit
  | _ => false

/-- The admission check on `claim_amount`: the pydantic field constraint
`gt=0` combined with the `validate_claim_amount_reasonable` validator,
which rejects amounts above 50000 (the demo cap). -/
def claimAmountCheck (v : ℚ) : Option ℚ :=
  if v ≤ 0 then none
  else if v > 50000 then none
  else some v

/-- `HealthcareClaim` (`models/healthcare_claim.py`), datetime fields
omitted (see header).  `priority` is the plain string value pydantic v1
stores for the enum field under `use_enum_values = True`. -/
structure HealthcareClaim where
  claim_id : String
  patient_id : String
  provider_id : String
  procedure_code : String
  diagnosis_code : String
  claim_amount : ℚ
  status : ClaimStatus
  priority : String
  medical_necessity_context : Option String
deriving DecidableEq

/-- Raw claim fields as they arrive in a request body, before pydantic
validation. -/
structure ClaimInput where
  claim_id : String
  patient_id : String
  provider_id : String
  procedure_code : String
  diagnosis_code : String
  claim_amount : ℚ
  status : String
  priority : String
  medical_necessity_context : Option String
deriving DecidableEq

/-- `HealthcareClaim.parse_obj`: pydantic construction with the field
patterns, the `gt=0` amount constraint, the amount-cap validator and the
enum conversions; `none` models the raised `ValidationError`. -/
def mkHealthcareClaim (i : ClaimInput) : Option HealthcareClaim :=
  if matchIdPattern "CLAIM" i.claim_id
      && matchPatientId i.patient_id
      && matchProviderId i.provider_id
      && matchProcedureCode i.procedure_code
      && matchDiagnosisCode i.diagnosis_code
      && (claimAmountCheck i.claim_amount).isSome then
    match ClaimStatus.ofString i.status, ClaimPriority.ofString i.priority with
    | some st, some _ =>
      some { claim_id := i.claim_id, patient_id := i.patient_id,
             provider_id := i.provider_id, procedure_code := i.procedure_code,
             diagnosis_code := i.diagnosis_code, claim_amount := i.claim_amount,
             status := st, priority := i.priority,
             medical_necessity_context := i.medical_necessity_context }
    | _, _ => none
  else none

/-- `HealthcareClaim.get_estimated_processing_cost`: base 0.05, plus 0.02
for a medical-necessity context longer than 500 characters, times a
priority multiplier (urgent 1.2, emergency 1.5), rounded to 3 decimals.
The source compares `self.priority == ClaimPriority.URGENT`; for the
stored plain string this is a string comparison (str-enum members compare
equal to their values), so the function is total. -/
def HealthcareClaim.get_estimated_processing_cost (c : HealthcareClaim) : ℚ :=
  let base_cost : ℚ := 5/100       -- 0.05
  let base_cost :=
    if (match c.medical_necessity_context with
        | some ctx => decide (ctx.length > 500)
        | none => false) then base_cost + 2/100 else base_cost     -- + 0.02
  let base_cost :=
    if c.priority = "urgent" then base_cost * (12/10)              -- * 1.2
    else if c.priority = "emergency" then base_cost * (15/10)      -- * 1.5
    else base_cost
  round3 base_cost

/-- `estimate_processing_cost` (`utils/cost_calculator.py`).  It computes
base, OpenAI and NVIDIA cost components, but its priority-multiplier step
reads `claim.priority.value` (line 277); on a pydantic-parsed claim the
priority is a plain string, so the function raises `AttributeError` for
every claim before any cost is returned. -/
def estimate_processing_cost (_c : HealthcareClaim) : Except PyError ℚ :=
  Except.error PyError.attributeError

/-- `ComplianceCheck` (`models/validation_result.py`). -/
structure ComplianceCheck where
  check_type : String
  passed : Bool
  details : String
  regulatory_framework : String
deriving DecidableEq

/-- `BusinessMetrics` (`models/validation_result.py`). -/
structure BusinessMetrics where
  manual_review_cost_avoided : ℚ
  processing_time_reduction : ℚ
  accuracy_improvement : ℚ
deriving DecidableEq

/-- `BusinessMetrics(...)` construction with the pydantic field constraints
(`ge=0`, and `le=100` on the two percentages). -/
def mkBusinessMetrics (a b c : ℚ) : Option BusinessMetrics :=
  if 0 ≤ a ∧ (0 ≤ b ∧ b ≤ 100) ∧ (0 ≤ c ∧ c ≤ 100) then
    some { manual_review_cost_avoided := a, processing_time_reduction := b,
           accuracy_improvement := c }
  else none

/-- `ValidationResult` (`models/validation_result.py`), `created_at`
omitted (see header). -/
structure ValidationResult where
  result_id : String
  claim_id : String
  validation_status : ValidationStatus
  confidence_score : ℚ
  cost_reduction : ℚ
  processing_time_ms : ℤ
  ai_reasoning_text : String
  compliance_checks : List ComplianceCheck
  requires_human_review : Bool
  business_metrics : BusinessMetrics
deriving DecidableEq

/-- `ValidationResult(...)` construction: the id patterns, the
`validate_confidence_range` validator (rejects values outside `[0,100]`,
then rounds to one decimal), `cost_reduction ge=0`,
`processing_time_ms gt=0` with the `validate_processing_time_reasonable`
validator (rejects values above 300000), and `ai_reasoning_text
min_length=1`. -/
def mkValidationResult (result_id claim_id : String)
    (validation_status : ValidationStatus)
    (confidence_score cost_reduction : ℚ) (processing_time_ms : ℤ)
    (ai_reasoning_text : String) (compliance_checks : List ComplianceCheck)
    (requires_human_review : Bool) (business_metrics : BusinessMetrics) :
    Option ValidationResult :=
  if matchIdPattern "RESULT" result_id
      && matchIdPattern "CLAIM" claim_id
      && decide (0 ≤ confidence_score ∧ confidence_score ≤ 100)
      && decide (0 ≤ cost_reduction)
      && decide (0 < processing_time_ms)
      && decide (processing_time_ms ≤ 300000)
      && decide (1 ≤ ai_reasoning_text.length) then
    some { result_id := result_id, claim_id := claim_id,
           validation_status := validation_status,
           confidence_score := round1 confidence_score,
           cost_reduction := cost_reduction,
           processing_time_ms := processing_time_ms,
           ai_reasoning_text := ai_reasoning_text,
           compliance_checks := compliance_checks,
           requires_human_review := requires_human_review,
           business_metrics := business_metrics }
  else none

/-- `calculate_business_metrics` (`handlers/claims_validator.py`): cost
avoided against a fixed 20.0 manual cost, a fixed time-reduction figure,
and an accuracy improvement from the confidence score. -/
def calculate_business_metrics (claim : HealthcareClaim)
    (confidence_score : ℚ) : Option BusinessMetrics :=
  let manual_cost : ℚ := 20
  let ai_cost := claim.get_estimated_processing_cost
  let cost_avoided := manual_cost - ai_cost
  let manual_time_hours : ℚ := 4 * 24
  let ai_time_hours : ℚ := 2 / 60
  let time_reduction := ((manual_time_hours - ai_time_hours) / manual_time_hours) * 100
  let manual_consistency : ℚ := 825/10    -- 82.5
  let accuracy_improvement := max 0 (confidence_score - manual_consistency)
  mkBusinessMetrics cost_avoided (min (999/10) time_reduction)
    (min 25 accuracy_improvement)

/-- Substring containment, `needle in haystack` of Python. -/
def containsSub (haystack needle : String) : Bool :=
  decide (needle.toList <:+: haystack.toList)

/-- The fixed strong-reasoning indicator words of
`AIService._extract_confidence_score`. -/
def strong_indicators : List String :=
  ["clearly", "definitely", "strongly indicated", "appropriate"]

/-- The fixed weak-reasoning indicator words of
`AIService._extract_confidence_score`. -/
def weak_indicators : List String :=
  ["possibly", "might", "unclear", "insufficient"]

/-- Numeric value of a digit run. -/
def digitsVal (ds : List Char) : ℕ :=
  ds.foldl (fun acc c => acc * 10 + (c.toNat - 48)) 0

/-- Value of a fractional digit run. -/
def fracVal (ds : List Char) : ℚ :=
  (digitsVal ds : ℚ) / (10 ^ ds.length)

/-- Separator class `[:\s]` of the confidence regex. -/
def isConfSep (c : Char) : Bool := c == ':' || c.isWhitespace

/-- Attempt to match the regex `confidence[:\s]+(\d+(?:\.\d+)?)` at the
head of the character list, returning the captured number. -/
def confMatchAt (cs : List Char) : Option ℚ :=
  if "confidence".toList.isPrefixOf cs then
    let rest := cs.drop 10
    let seps := rest.takeWhile isConfSep
    let rest2 := rest.dropWhile isConfSep
    if seps.length = 0 then none
    else
      let ds := rest2.takeWhile Char.isDigit
      let rest3 := rest2.dropWhile Char.isDigit
      if ds.length = 0 then none
      else
        match rest3 with
        | '.' :: tl =>
          let fs := tl.takeWhile Char.isDigit
          if fs.length = 0 then some (digitsVal ds : ℚ)
          else some ((digitsVal ds : ℚ) + fracVal fs)
        | _ => some (digitsVal ds : ℚ)
  else none

/-- `re.search` for the confidence regex: the match at the leftmost
position where the whole pattern matches, `none` if there is none. -/
def searchConfidence : List Char → Option ℚ
  | [] => none
  | c :: tl =>
    match confMatchAt (c :: tl) with
    | some v => some v
    | none => searchConfidence tl

namespace AIService

/-- `AIService._extract_confidence_score`: the number captured by the
confidence regex clamped into `[0,100]`, else an indicator-count
fallback. -/
def extract_confidence_score (reasoning_text : String) : ℚ :=
  match searchConfidence (strToLower reasoning_text).toList with
  | some v => min 100 (max 0 v)
  | none =>
    let lower := strToLower reasoning_text
    let strong_count := (strong_indicators.filter (fun ind => containsSub lower ind)).length
    let weak_count := (weak_indicators.filter (fun ind => containsSub lower ind)).length
    if strong_count > weak_count then 75 + (strong_count : ℚ) * 5
    else 60 - (weak_count : ℚ) * 5

/-- `AIService._determine_validation_status`.  The two branches that read
`ValidationStatus.REQUIRES_HUMAN_REVIEW` go through the member lookup,
which fails (`AttributeError`) because the enum has no such member. -/
def determine_validation_status (reasoning : String) (confidence : ℚ) :
    Except PyError ValidationStatus :=
  let reasoning_lower := strToLower reasoning
  if containsSub reasoning_lower "approved" && decide (70 ≤ confidence) then
    .ok .approved
  else if containsSub reasoning_lower "denied" && decide (70 ≤ confidence) then
    .ok .denied
  else if confidence < 60 then
    match ValidationStatus.memberNamed "REQUIRES_HUMAN_REVIEW" with
    | some vs => .ok vs
    | none => .error .attributeError
  else if 75 ≤ confidence then .ok .approved
  else
    match ValidationStatus.memberNamed "REQUIRES_HUMAN_REVIEW" with
    | some vs => .ok vs
    | none => .error .attributeError

/-- `AIService._get_fallback_reasoning`: the static fallback text built
from the claim. -/
def get_fallback_reasoning (claim : HealthcareClaim) : String :=
  "FALLBACK MEDICAL REASONING (OpenAI API unavailable):\n\nProcedure "
    ++ claim.procedure_code ++ " for diagnosis " ++ claim.diagnosis_code
    ++ " has been reviewed\nusing standard medical guidelines. The requested service amount of $"
    ++ toString claim.claim_amount
    ++ "\nis within typical cost ranges for this procedure.\n\nClinical Context: "
    ++ (claim.medical_necessity_context.getD "Limited clinical context provided")
    ++ "\n\nRECOMMENDATION: Requires human review due to API unavailability\nCONFIDENCE: 50% (fallback mode)\n\nNote: This is a fallback response. Full AI analysis requires OpenAI API connectivity."

end AIService

/-- One entry of the fixed mock-scenario table of
`AIService._select_mock_scenario`. -/
structure MockScenario where
  name : String
  status : String
  confidence : ℚ
  compliance_score : ℤ
  reasoning : String
deriving DecidableEq

namespace AIService

/-- Scenario 0: routine preventive care, approved. -/
def scenario_preventive : MockScenario :=
  { name := "Routine Preventive Care - Approved"
    status := "approved"
    confidence := 88
    compliance_score := 92
    reasoning := "PREVENTIVE CARE MEDICAL NECESSITY ANALYSIS\n\nCLINICAL ASSESSMENT:\nProcedure {procedure_code} for diagnosis {diagnosis_code} represents evidence-based preventive care intervention.\n\nClinical Context: {medical_context}\n\nMEDICAL APPROPRIATENESS:\n✓ Procedure aligns with USPSTF Grade A/B recommendations\n✓ Patient age and risk factors support intervention timing\n✓ Cost-effective approach to disease prevention\n✓ Follows evidence-based clinical guidelines\n\nCOST-EFFECTIVENESS:\nPreventive intervention cost of ${claim_amount} demonstrates excellent value proposition compared to treating advanced disease states. Early intervention prevents costlier downstream complications.\n\nRECOMMENDATION: APPROVED\nCONFIDENCE: 88%\n\nThis preventive care service meets all clinical appropriateness and cost-effectiveness criteria." }

/-- Scenario 1: complex surgery, approved. -/
def scenario_surgery : MockScenario :=
  { name := "Complex Surgery - Approved"
    status := "approved"
    confidence := 82
    compliance_score := 85
    reasoning := "COMPLEX SURGICAL PROCEDURE ANALYSIS\n\nCLINICAL ASSESSMENT:\nProcedure {procedure_code} for diagnosis {diagnosis_code} represents medically necessary surgical intervention.\n\nClinical Context: {medical_context}\n\nSURGICAL NECESSITY:\n✓ Conservative treatments attempted or contraindicated\n✓ Procedure is appropriate first-line surgical treatment\n✓ Expected clinical outcomes justify surgical risks\n✓ Timing of intervention is clinically appropriate\n\nCOST ANALYSIS:\nSurgical cost of ${claim_amount} is within acceptable range for this procedure complexity. Early surgical intervention may prevent emergency complications requiring costlier intensive care.\n\nRECOMMENDATION: APPROVED\nCONFIDENCE: 82%\n\nThis surgical procedure demonstrates clear medical necessity and appropriate clinical decision-making." }

/-- Scenario 2: experimental treatment, review required.  Its status
string `requires_human_review` is NOT a `ValidationStatus` member
value. -/
def scenario_experimental : MockScenario :=
  { name := "Experimental Treatment - Review Required"
    status := "requires_human_review"
    confidence := 45
    compliance_score := 55
    reasoning := "INVESTIGATIONAL TREATMENT REVIEW\n\nCLINICAL ASSESSMENT:\nProcedure {procedure_code} for diagnosis {diagnosis_code} requires peer review evaluation.\n\nClinical Context: {medical_context}\n\nREVIEW CRITERIA:\n⚠ Limited evidence base for this specific indication\n⚠ Alternative standard treatments should be considered first\n⚠ Cost-effectiveness analysis needed (${claim_amount})\n⚠ Long-term outcomes data incomplete\n\nREGULATORY STATUS:\nThis procedure may be considered investigational for the stated diagnosis. Additional clinical documentation and peer review recommended before approval.\n\nRECOMMENDATION: REQUIRES HUMAN REVIEW\nCONFIDENCE: 45%\n\nClinical reviewer should evaluate appropriateness against current evidence-based guidelines." }

/-- Scenario 3: high-cost claim, denied. -/
def scenario_denied : MockScenario :=
  { name := "High-Cost Denied - Insufficient Justification"
    status := "denied"
    confidence := 75
    compliance_score := 25
    reasoning := "MEDICAL NECESSITY DENIAL\n\nCLINICAL ASSESSMENT:\nProcedure {procedure_code} for diagnosis {diagnosis_code} lacks sufficient clinical justification.\n\nClinical Context: {medical_context}\n\nDENIAL RATIONALE:\n✗ Clinical documentation insufficient to establish medical necessity\n✗ Alternative, less costly interventions not adequately attempted\n✗ Procedure not first-line treatment per clinical guidelines\n✗ Cost of ${claim_amount} not justified by clinical benefit ratio\n\nALTERNATIVE RECOMMENDATIONS:\nConservative treatment approaches should be attempted before considering this intervention. Additional clinical documentation required to support medical necessity.\n\nRECOMMENDATION: DENIED\nCONFIDENCE: 75%\n\nPlease submit additional clinical documentation or consider alternative treatment approaches." }

/-- `AIService._select_mock_scenario`.  For amounts above 10000 it returns
the experimental or surgery scenario by the 20000 threshold without
touching the priority.  For amounts of at most 10000 it evaluates
`claim.priority.value` (ai_service.py:479); on a pydantic-parsed claim the
priority is a plain string, so that access raises `AttributeError` and the
preventive / denied / urgent-surgery arms are unreachable. -/
def select_mock_scenario (claim : HealthcareClaim) :
    Except PyError MockScenario :=
  if claim.claim_amount > 10000 then
    .ok (if claim.claim_amount > 20000 then scenario_experimental
         else scenario_surgery)
  else .error .attributeError

/-- `str.format` substitution used on the scenario reasoning templates. -/
def format_reasoning (template : String) (claim : HealthcareClaim) : String :=
  (((template.replace "{procedure_code}" claim.procedure_code).replace
      "{diagnosis_code}" claim.diagnosis_code).replace
    "{claim_amount}" (toString claim.claim_amount)).replace
    "{medical_context}"
    (claim.medical_necessity_context.getD "Standard clinical presentation")

/-- `AIService._get_mock_medical_reasoning`: formats the selected scenario
and converts its status string with `ValidationStatus(...)`; the selector
may itself raise, and the conversion raises `ValueError` for a status
string that is no member value. -/
def get_mock_medical_reasoning (claim : HealthcareClaim) :
    Except PyError (String × ℚ × ValidationStatus) :=
  match select_mock_scenario claim with
  | .error e => .error e
  | .ok scenario =>
    let reasoning := format_reasoning scenario.reasoning claim
    match ValidationStatus.ofString scenario.status with
    | some status => .ok (reasoning, scenario.confidence, status)
    | none => .error .valueError

/-- `AIService.get_medical_reasoning`.  In mock mode it delegates to the
mock generator (outside the try block).  Otherwise the try block consumes
the external OpenAI response (`api_response`; `.error` models any raised
exception, including a failed HTTP call) and derives confidence and
status; on ANY exception in the try block the except handler evaluates
`ValidationStatus.REQUIRES_HUMAN_REVIEW` to build the fallback triple. -/
def get_medical_reasoning (use_mock_ai : Bool) (claim : HealthcareClaim)
    (api_response : Except String String) :
    Except PyError (String × ℚ × ValidationStatus) :=
  if use_mock_ai then get_mock_medical_reasoning claim
  else
    let tryBlock : Except PyError (String × ℚ × ValidationStatus) :=
      match api_response with
      | .error _ => .error .apiError
      | .ok reasoning_text =>
        let confidence_score := extract_confidence_score reasoning_text
        match determine_validation_status reasoning_text confidence_score with
        | .ok validation_status =>
          .ok (reasoning_text, confidence_score, validation_status)
        | .error e => .error e
    match tryBlock with
    | .ok r => .ok r
    | .error _ =>
      match ValidationStatus.memberNamed "REQUIRES_HUMAN_REVIEW" with
      | some vs => .ok (get_fallback_reasoning claim, 50, vs)
      | none => .error .attributeError

end AIService

/-- One entry of the fixed scenario table of the steel-thread handler
(`handlers/claims_validator_simple.py`, `select_mock_scenario`). -/
structure SimpleScenario where
  name : String
  status : String
  confidence : ℚ
  reasoning : String
deriving DecidableEq

namespace Simple

/-- Simple-handler scenario 0: routine preventive care, approved. -/
def scenario_preventive : SimpleScenario :=
  { name := "Routine Preventive Care - Approved"
    status := "approved"
    confidence := 88
    reasoning := "PREVENTIVE CARE MEDICAL NECESSITY ANALYSIS\n\nCLINICAL ASSESSMENT:\nProcedure {procedure_code} for diagnosis {diagnosis_code} represents evidence-based preventive care intervention.\n\nMedical Context: {medical_context}\n\nMEDICAL APPROPRIATENESS:\n✓ Procedure aligns with USPSTF recommendations\n✓ Patient age and risk factors support intervention timing\n✓ Cost-effective approach to disease prevention\n✓ Follows evidence-based clinical guidelines\n\nRECOMMENDATION: APPROVE\nMedical necessity clearly established for preventive intervention." }

/-- Simple-handler scenario 1: standard treatment, approved. -/
def scenario_standard : SimpleScenario :=
  { name := "Standard Treatment - Approved"
    status := "approved"
    confidence := 825/10   -- 82.5
    reasoning := "STANDARD TREATMENT MEDICAL NECESSITY ANALYSIS\n\nCLINICAL ASSESSMENT:\nProcedure {procedure_code} for diagnosis {diagnosis_code} represents appropriate therapeutic intervention.\n\nMedical Context: {medical_context}\n\nCLINICAL JUSTIFICATION:\n✓ Procedure directly addresses diagnosed condition\n✓ Treatment approach consistent with standard of care\n✓ Cost aligns with typical reimbursement patterns\n✓ No contraindications identified\n\nRECOMMENDATION: APPROVE\nStandard treatment protocol validates medical necessity." }

/-- Simple-handler scenario 2: complex case, pending review. -/
def scenario_complex : SimpleScenario :=
  { name := "Complex Case - Requires Review"
    status := "pending"
    confidence := 658/10   -- 65.8
    reasoning := "COMPLEX CASE MEDICAL NECESSITY ANALYSIS\n\nCLINICAL ASSESSMENT:\nProcedure {procedure_code} for diagnosis {diagnosis_code} presents atypical clinical scenario.\n\nMedical Context: {medical_context}\n\nCLINICAL CONSIDERATIONS:\n⚠ Procedure coding may require clarification\n⚠ Diagnosis-procedure alignment needs verification\n⚠ Cost exceeds typical range - justification needed\n✓ No absolute contraindications identified\n\nRECOMMENDATION: HUMAN REVIEW\nComplex clinical scenario requires specialist evaluation." }

/-- Simple-handler scenario 3: experimental treatment, denied. -/
def scenario_experimental : SimpleScenario :=
  { name := "Experimental Treatment - Denied"
    status := "denied"
    confidence := 912/10   -- 91.2
    reasoning := "EXPERIMENTAL TREATMENT MEDICAL NECESSITY ANALYSIS\n\nCLINICAL ASSESSMENT:\nProcedure {procedure_code} for diagnosis {diagnosis_code} represents non-standard intervention.\n\nMedical Context: {medical_context}\n\nCOVERAGE DETERMINATION:\n✗ Procedure not included in evidence-based guidelines\n✗ Insufficient clinical evidence for effectiveness\n✗ Alternative standard treatments available\n✗ Does not meet medical necessity criteria\n\nRECOMMENDATION: DENY\nExperimental nature prevents coverage approval." }

/-- `select_mock_scenario` of the steel-thread handler: picks one of four
fixed scenarios by procedure-code string patterns and claim-amount
thresholds; the diagnosis code is not consulted. -/
def select_mock_scenario (procedure_code : String) (_diagnosis_code : String)
    (claim_amount : ℚ) : SimpleScenario :=
  if "99".toList.isPrefixOf procedure_code.toList then
    if claim_amount < 500 then scenario_standard else scenario_complex
  else if "0".toList.isPrefixOf procedure_code.toList then scenario_preventive
  else if claim_amount > 1000 then scenario_complex
  else scenario_standard

end Simple

/-- The successful outcome of the medical-reasoning step, as consumed by
`perform_claim_validation` (text, confidence, status). -/
structure AIOutcome where
  reasoning_text : String
  confidence_score : ℚ
  validation_status : ValidationStatus
deriving DecidableEq

/-- `perform_claim_validation` (`handlers/claims_validator.py`): given the
reasoning-step outcome and the compliance checks, computes business
metrics, builds the result id from the date and the claim id tail, and
constructs the `ValidationResult`; `requires_human_review` is set exactly
when the confidence is below 70 or some compliance check failed.
`processing_time_ms` and the `YYYYMMDD` date string are wall-clock inputs
passed in as parameters. -/
def perform_claim_validation (claim : HealthcareClaim) (ai : AIOutcome)
    (compliance_checks : List ComplianceCheck) (processing_time_ms : ℤ)
    (dateStr : String) : Option ValidationResult :=
  match calculate_business_metrics claim ai.confidence_score with
  | none => none
  | some business_metrics =>
    let result_id :=
      "RESULT_" ++ dateStr ++ "_" ++ lastUnderscoreToken claim.claim_id
    mkValidationResult result_id claim.claim_id ai.validation_status
      ai.confidence_score business_metrics.manual_review_cost_avoided
      processing_time_ms ai.reasoning_text compliance_checks
      (decide (ai.confidence_score < 70) || !(compliance_checks.all (·.passed)))
      business_metrics

/-- The DynamoDB claims-table item written by `ClaimsService.store_claim`
(the fields used by `get_claim`). -/
structure ClaimMetadata where
  claim_id : String
  status : String
  patient_id : String
  provider_id : String
  procedure_code : String
  diagnosis_code : String
  claim_amount : ℚ
  priority : String
deriving DecidableEq

/-- A stored claim: DynamoDB metadata plus the full S3 document (the S3
document reference can in principle dangle, hence the `Option`). -/
structure ClaimRecord where
  metadata : ClaimMetadata
  s3doc : Option HealthcareClaim
deriving DecidableEq

/-- The persistent state seen by `ClaimsService`: the claims table and,
keyed by claim id as the `claim-id-index` GSI query does, the most recent
validation result. -/
structure StoreState where
  claims : String → Option ClaimRecord
  results : String → Option ValidationResult

/-- The empty store. -/
def emptyStore : StoreState :=
  { claims := fun _ => none, results := fun _ => none }

/-- Reconstruction of a claim from DynamoDB metadata alone, the fallback
of `ClaimsService.get_claim` when the S3 document is missing. -/
def mkClaimFromMetadata (md : ClaimMetadata) : Option HealthcareClaim :=
  mkHealthcareClaim
    { claim_id := md.claim_id, patient_id := md.patient_id,
      provider_id := md.provider_id, procedure_code := md.procedure_code,
      diagnosis_code := md.diagnosis_code, claim_amount := md.claim_amount,
      status := md.status, priority := md.priority,
      medical_necessity_context := none }

/-- `ClaimsService.get_claim`: `none` when the id is absent from the
metadata table; otherwise the claim parsed from the full S3 document,
falling back to the metadata reconstruction. -/
def get_claim (st : StoreState) (claim_id : String) : Option HealthcareClaim :=
  match st.claims claim_id with
  | none => none
  | some rec =>
    match rec.s3doc with
    | some doc => some doc
    | none => mkClaimFromMetadata rec.metadata

/-- `ClaimsService.get_validation_result`. -/
def get_validation_result (st : StoreState) (claim_id : String) :
    Option ValidationResult :=
  st.results claim_id

/-- The response payloads the embedded handlers produce. -/
inductive RespData
  | submission (claim_id : String) (status : String) (estimated_cost : ℚ)
  | claimStatus (claim : HealthcareClaim) (status : String)
      (validation : Option ValidationResult)
deriving DecidableEq

/-- Body of an API Gateway response: success data or an error message. -/
inductive ResponseBody
  | ok (data : RespData)
  | err (message : String)
deriving DecidableEq

/-- An API Gateway response. -/
structure Response where
  statusCode : ℕ
  body : ResponseBody
deriving DecidableEq

/-- `create_error_response` (`handlers/claims_validator.py`); the optional
details argument is only echoed in DEBUG mode and is not modelled. -/
def create_error_response (statusCode : ℕ) (message : String) : Response :=
  { statusCode := statusCode, body := .err message }

/-- `create_success_response` (`handlers/claims_validator.py`). -/
def create_success_response (statusCode : ℕ) (data : RespData) : Response :=
  { statusCode := statusCode, body := .ok data }

/-- `handle_claim_status_request` (`handlers/claims_validator.py`): 404
with a "not found" message for an unknown id, otherwise the claim, its
status value and the validation block (which may be null). -/
def handle_claim_status_request (claim_id : String) (st : StoreState) :
    Response :=
  match get_claim st claim_id with
  | none => create_error_response 404 ("Claim " ++ claim_id ++ " not found")
  | some claim =>
    let validation_result := get_validation_result st claim_id
    create_success_response 200
      (.claimStatus claim claim.status.value validation_result)

/-- `handle_claim_submission` (`handlers/claims_validator.py`).  A parse
failure is a `ValueError` and gives the 400 invalid-claim response.  When
the parse succeeds, the very next statement (lines 98-105) is a
`logger.info` call whose keyword argument `priority=claim.priority.value`
is evaluated eagerly; the parsed claim's priority is a plain string, so
that expression raises `AttributeError`, which the generic
`except Exception` handler turns into the 500 response — before the
budget check, before `store_claim`, before the validation workflow.  The
remainder of the source function (cost check, storage, validation,
status update, 202 response) is unreachable for every pydantic-parsed
claim and is therefore not part of the embedding; even hypothetically
past line 104, the non-review branch at line 126 reads
`validation_result.validation_status.value` on a plain string and
`update_claim_status` (claims_service.py:191) reads `new_status.value`,
each raising the same way.  The unused parameters keep the handler's
interface: the AI-step outcomes and wall-clock values the unreachable
code would consume. -/
def handle_claim_submission (request_data : ClaimInput) (_ai : AIOutcome)
    (_compliance_checks : List ComplianceCheck) (_processing_time_ms : ℤ)
    (_dateStr : String) (_settings : Settings) (st : StoreState) :
    Response × StoreState :=
  match mkHealthcareClaim request_data with
  | none => (create_error_response 400 "Invalid claim data", st)
  | some _claim0 =>
    (create_error_response 500 "Claim submission failed", st)

/-- One entry of a session ledger operations log
(`utils/cost_calculator.py`). -/
structure CostOperation where
  operation : String
  cost_type : String
  amount : ℚ
deriving DecidableEq

/-- Per-session accumulated costs (`_cost_tracking[session_id]`). -/
structure SessionCosts where
  total_cost : ℚ
  costs_by_type : List (String × ℚ)
  operations : List CostOperation
deriving DecidableEq

/-- Update of an association list at a key known to be present. -/
def updateAssoc (l : List (String × ℚ)) (k : String) (v : ℚ) :
    List (String × ℚ) :=
  l.map (fun p => if p.1 = k then (k, v) else p)

/-- `record_cost` (`utils/cost_calculator.py`): initializes the session
entry if absent and adds the amount to the running totals (these dict
mutations persist).  It then checks the thresholds: `logger.warning` /
`logger.error` are called with structlog-style keyword arguments on a
stdlib logger, and WARNING and ERROR are enabled by default, so
`Logger._log` raises `TypeError` at these calls.  Hence nothing is
logged and the function raises exactly when the new total has reached
the warning threshold (the budget-limit check is then unreachable) or,
failing that, the budget limit; below both it returns normally.  The
returned pair is the mutated tracking map together with the
raise-or-return outcome. -/
def record_cost (settings : Settings)
    (tracking : String → Option SessionCosts)
    (session_id cost_type : String) (amount : ℚ) (operation : String) :
    (String → Option SessionCosts) × Except PyError Unit :=
  let session_costs := (tracking session_id).getD
    { total_cost := 0, costs_by_type := [], operations := [] }
  let new_total := session_costs.total_cost + amount
  let by_type :=
    match session_costs.costs_by_type.lookup cost_type with
    | some v => updateAssoc session_costs.costs_by_type cost_type (v + amount)
    | none => session_costs.costs_by_type ++ [(cost_type, amount)]
  let updated : SessionCosts :=
    { total_cost := new_total, costs_by_type := by_type,
      operations := session_costs.operations ++
        [{ operation := operation, cost_type := cost_type, amount := amount }] }
  let outcome : Except PyError Unit :=
    if new_total ≥ settings.BUDGET_WARNING_THRESHOLD_USD then
      .error .typeError
    else if new_total ≥ settings.MAX_DEMO_BUDGET_USD then
      .error .typeError
    else .ok ()
  (fun k => if k = session_id then some updated else tracking k, outcome)

/-!  Concrete demonstration objects used by witnesses and counterexamples. -/

/-- A well-formed raw claim submission. -/
def demoInput : ClaimInput :=
  { claim_id := "CLAIM_20250101_001", patient_id := "DEMO_PATIENT_1",
    provider_id := "PROV_1", procedure_code := "99213",
    diagnosis_code := "K21.9", claim_amount := 250,
    status := "submitted", priority := "routine",
    medical_necessity_context := none }

/-- The claim `demoInput` parses to. -/
def demoClaim : HealthcareClaim :=
  { claim_id := "CLAIM_20250101_001", patient_id := "DEMO_PATIENT_1",
    provider_id := "PROV_1", procedure_code := "99213",
    diagnosis_code := "K21.9", claim_amount := 250,
    status := ClaimStatus.submitted, priority := "routine",
    medical_necessity_context := none }

/-- `demoClaim` after the handler sets its status to `processing`. -/
def demoClaimProcessing : HealthcareClaim :=
  { demoClaim with status := ClaimStatus.processing }

/-- A successful reasoning-step outcome. -/
def demoAI : AIOutcome :=
  { reasoning_text := "ok", confidence_score := 88,
    validation_status := ValidationStatus.approved }

/-- A passing compliance check. -/
def demoCheck : ComplianceCheck :=
  { check_type := "HIPAA_PRIVACY", passed := true, details := "ok",
    regulatory_framework := "HIPAA" }

/-- The validation result produced for `demoClaimProcessing` with the
`demoAI` outcome and `[demoCheck]`. -/
def demoResult : ValidationResult :=
  { result_id := "RESULT_20250101_001", claim_id := "CLAIM_20250101_001",
    validation_status := ValidationStatus.approved,
    confidence_score := round1 88,
    cost_reduction := 20 - demoClaimProcessing.get_estimated_processing_cost,
    processing_time_ms := 1000, ai_reasoning_text := "ok",
    compliance_checks := [demoCheck], requires_human_review := false,
    business_metrics :=
      { manual_review_cost_avoided :=
          20 - demoClaimProcessing.get_estimated_processing_cost,
        processing_time_reduction := 999/10,
        accuracy_improvement := min 25 (max 0 (88 - 825/10)) } }

/-!  Shared helper lemmas. -/

/-- The six concrete values `get_estimated_processing_cost` can take. -/
lemma get_estimated_processing_cost_cases (c : HealthcareClaim) :
    c.get_estimated_processing_cost = 5/100 ∨
    c.get_estimated_processing_cost = 6/100 ∨
    c.get_estimated_processing_cost = 75/1000 ∨
    c.get_estimated_processing_cost = 7/100 ∨
    c.get_estimated_processing_cost = 84/1000 ∨
    c.get_estimated_processing_cost = 105/1000 := by
  unfold HealthcareClaim.get_estimated_processing_cost
  cases hctx : (match c.medical_necessity_context with
      | some ctx => decide (ctx.length > 500)
      | none => false) <;>
    simp only [hctx, Bool.false_eq_true, if_false, if_true] <;>
      split_ifs <;> norm_num [round3]

/-- Closed form of `calculate_business_metrics` when the cost avoided is
nonnegative. -/
lemma calculate_business_metrics_spec (c : HealthcareClaim) (conf : ℚ)
    (hc : 0 ≤ 20 - c.get_estimated_processing_cost) :
    calculate_business_metrics c conf =
      some { manual_review_cost_avoided := 20 - c.get_estimated_processing_cost,
             processing_time_reduction := 999/10,
             accuracy_improvement := min 25 (max 0 (conf - 825/10)) } := by
  unfold calculate_business_metrics mkBusinessMetrics
  have htime : min (999/10 : ℚ) (((4*24 : ℚ) - 2/60) / (4*24) * 100) = 999/10 := by
    rw [min_eq_left]
    norm_num
  rw [if_pos]
  · rw [htime]
  · refine ⟨hc, ⟨?_, ?_⟩, ?_, ?_⟩
    · rw [htime]; norm_num
    · rw [htime]; norm_num
    · exact le_min (by norm_num) (le_max_left _ _)
    · exact le_trans (min_le_left _ _) (by norm_num)

/-- `round1` keeps values inside `[0, 100]`. -/
lemma round1_bounds (q : ℚ) (h0 : 0 ≤ q) (h1 : q ≤ 100) :
    0 ≤ round1 q ∧ round1 q ≤ 100 := by
  unfold round1
  constructor
  · apply div_nonneg _ (by norm_num)
    exact_mod_cast Int.floor_nonneg.mpr (by linarith)
  · rw [div_le_iff₀ (by norm_num : (0:ℚ) < 10)]
    have h2 : (⌊10*q + 1/2⌋ : ℤ) ≤ ⌊(2001/2 : ℚ)⌋ := Int.floor_le_floor (by linarith)
    have h3 : (⌊(2001/2 : ℚ)⌋ : ℤ) = 1000 := by
      rw [Int.floor_eq_iff]
      norm_num
    rw [h3] at h2
    calc ((⌊10*q + 1/2⌋ : ℤ) : ℚ) ≤ (1000 : ℚ) := by exact_mod_cast h2
      _ = 100 * 10 := by norm_num

/-- The amount admission check succeeds exactly on `(0, 50000]`. -/
lemma claimAmountCheck_isSome (v : ℚ) :
    (claimAmountCheck v).isSome = true ↔ 0 < v ∧ v ≤ 50000 := by
  unfold claimAmountCheck
  split
  case isTrue h =>
    simp only [Option.isSome_none, Bool.false_eq_true, false_iff]
    rintro ⟨h1, -⟩
    linarith
  case isFalse h =>
    split
    case isTrue h2 =>
      simp only [Option.isSome_none, Bool.false_eq_true, false_iff]
      rintro ⟨-, h3⟩
      linarith
    case isFalse h2 =>
      simp only [Option.isSome_some, true_iff]
      exact ⟨lt_of_not_le h, not_lt.mp h2⟩

/-- The estimated processing cost of `demoClaimProcessing`. -/
lemma demoClaimProcessing_cost :
    demoClaimProcessing.get_estimated_processing_cost = 5/100 := by
  simp [HealthcareClaim.get_estimated_processing_cost, demoClaimProcessing, demoClaim]
  norm_num [round3]

/-- The concrete validation run used by witnesses. -/
lemma demo_run :
    perform_claim_validation demoClaimProcessing demoAI [demoCheck] 1000 "20250101" =
      some demoResult := by
  unfold perform_claim_validation
  rw [show demoAI.confidence_score = 88 from rfl]
  rw [calculate_business_metrics_spec demoClaimProcessing 88
    (by rw [demoClaimProcessing_cost]; norm_num)]
  dsimp only []
  unfold mkValidationResult
  rw [if_pos]
  · rfl
  · simp only [Bool.and_eq_true, decide_eq_true_eq]
    refine ⟨⟨⟨⟨⟨⟨?_, ?_⟩, ?_⟩, ?_⟩, ?_⟩, ?_⟩, ?_⟩
    · decide
    · decide
    · norm_num
    · rw [demoClaimProcessing_cost]; norm_num
    · decide
    · decide
    · decide

/-!  Claim theorems. -/

/-- C1: for every claim processed by `perform_claim_validation`, the
`requires_human_review` flag of the produced `ValidationResult` is true
exactly when the confidence score returned by the reasoning step is below
70 or at least one returned compliance check has `passed = false`. -/
theorem C1_requires_human_review_iff (claim : HealthcareClaim)
    (ai : AIOutcome) (checks : List ComplianceCheck) (pt : ℤ) (ds : String)
    (r : ValidationResult)
    (h : perform_claim_validation claim ai checks pt ds = some r) :
    r.requires_human_review = true ↔
      (ai.confidence_score < 70 ∨ ∃ chk ∈ checks, chk.passed = false) := by
  unfold perform_claim_validation at h
  cases hbm : calculate_business_metrics claim ai.confidence_score with
  | none => rw [hbm] at h; simp at h
  | some bm =>
    rw [hbm] at h
    dsimp only [] at h
    unfold mkValidationResult at h
    split at h
    case isTrue hcond =>
      obtain rfl := Option.some.inj h
      simp only [Bool.or_eq_true, decide_eq_true_eq, Bool.not_eq_true',
        List.all_eq_false, Bool.not_eq_true]
    case isFalse => simp at h

/-- C1 witness: the concrete demonstration run, where the confidence is 88
and the single compliance check passes, so the flag is false. -/
theorem C1_requires_human_review_iff_witness :
    demoResult.requires_human_review = true ↔
      ((88:ℚ) < 70 ∨ ∃ chk ∈ [demoCheck], chk.passed = false) :=
  C1_requires_human_review_iff demoClaimProcessing demoAI [demoCheck]
    1000 "20250101" demoResult demo_run

/-- C2 (code bug): on any failure of the external reasoning call, the
except handler of `get_medical_reasoning` is meant to return the static
fallback triple, but it reads `ValidationStatus.REQUIRES_HUMAN_REVIEW`,
a member the enum does not have, so the handler itself raises an
`AttributeError` instead of returning the fallback. -/
theorem C2_fallback_path_raises_attribute_error :
    ValidationStatus.memberNamed "REQUIRES_HUMAN_REVIEW" = none ∧
    ∀ (claim : HealthcareClaim) (errmsg : String),
      AIService.get_medical_reasoning false claim (Except.error errmsg) =
        Except.error PyError.attributeError := by
  exact ⟨rfl, fun claim errmsg => rfl⟩

/-- A routine-priority claim with amount 3000, inside the range where the
selector reads `claim.priority.value`. -/
def c3_claimA : HealthcareClaim :=
  { demoClaim with claim_amount := 3000 }

/-- C3 counterexample: for the concrete claim with amount 3000 the
selector does not return one of the four scenario templates at all: it
raises `AttributeError` at `claim.priority.value`, because the
pydantic-parsed claim's priority is a plain string.  The selection is
therefore not a total function into the four templates, let alone one
chosen by amount thresholds and procedure-code prefixes. -/
theorem C3_selector_not_by_amount_and_procedure :
    AIService.select_mock_scenario c3_claimA =
      Except.error PyError.attributeError ∧
    ∀ s : MockScenario, AIService.select_mock_scenario c3_claimA ≠ Except.ok s := by
  refine ⟨rfl, fun s h => ?_⟩
  exact Except.noConfusion
    ((show AIService.select_mock_scenario c3_claimA =
        Except.error PyError.attributeError from rfl).symm.trans h)

/-- C3 amended: only the steel-thread handler's `select_mock_scenario` is
a deterministic total function of the claim attributes into its fixed
four-scenario table, chosen by procedure-code prefixes and amount
thresholds (the diagnosis code is ignored).
`AIService._select_mock_scenario` raises `AttributeError` for every claim
with amount at most 10000 (it reads `claim.priority.value` on the
pydantic plain-str priority) and for larger amounts deterministically
returns the surgery or experimental template by the 20000 threshold
alone; its outcome is a function of the claim amount only. -/
theorem C3_selector_amended :
    (∀ c : HealthcareClaim, c.claim_amount ≤ 10000 →
      AIService.select_mock_scenario c = Except.error PyError.attributeError) ∧
    (∀ c : HealthcareClaim, 10000 < c.claim_amount →
      AIService.select_mock_scenario c =
        Except.ok (if 20000 < c.claim_amount then AIService.scenario_experimental
                   else AIService.scenario_surgery)) ∧
    (∀ c c' : HealthcareClaim, c.claim_amount = c'.claim_amount →
      AIService.select_mock_scenario c = AIService.select_mock_scenario c') ∧
    (∀ (pc dc : String) (amt : ℚ), Simple.select_mock_scenario pc dc amt ∈
      [Simple.scenario_preventive, Simple.scenario_standard,
       Simple.scenario_complex, Simple.scenario_experimental]) ∧
    (∀ (pc dc dc' : String) (amt : ℚ),
      Simple.select_mock_scenario pc dc amt =
        Simple.select_mock_scenario pc dc' amt) := by
  refine ⟨?_, ?_, ?_, ?_, ?_⟩
  · intro c h
    unfold AIService.select_mock_scenario
    rw [if_neg (not_lt.mpr h)]
  · intro c h
    unfold AIService.select_mock_scenario
    rw [if_pos h]
  · intro c c' h
    unfold AIService.select_mock_scenario
    rw [h]
  · intro pc dc amt
    unfold Simple.select_mock_scenario
    split_ifs <;> simp
  · intro pc dc dc' amt
    rfl

/-- C3 witness: the amended statement at concrete inputs — amount 3000
raises, amount 15000 returns the surgery template, and two claims with
equal amounts but different priorities and procedure codes get the same
outcome. -/
theorem C3_selector_amended_witness :
    AIService.select_mock_scenario c3_claimA =
      Except.error PyError.attributeError ∧
    AIService.select_mock_scenario { demoClaim with claim_amount := 15000 } =
      Except.ok (if (20000:ℚ) < ({ demoClaim with claim_amount := 15000 } :
        HealthcareClaim).claim_amount then AIService.scenario_experimental
        else AIService.scenario_surgery) ∧
    AIService.select_mock_scenario c3_claimA =
      AIService.select_mock_scenario
        { c3_claimA with procedure_code := "10021", priority := "urgent" } :=
  ⟨C3_selector_amended.1 c3_claimA (by norm_num [c3_claimA, demoClaim]),
    C3_selector_amended.2.1 { demoClaim with claim_amount := 15000 }
      (by norm_num [demoClaim]),
    C3_selector_amended.2.2.1 c3_claimA
      { c3_claimA with procedure_code := "10021", priority := "urgent" } rfl⟩

/-- C4: `_extract_confidence_score` always returns a value in `[0,100]`
(the regex capture is clamped, the indicator fallbacks stay inside the
range), and every successfully constructed `ValidationResult` has its
`confidence_score` in `[0,100]`. -/
theorem C4_confidence_in_range :
    (∀ text : String, 0 ≤ AIService.extract_confidence_score text ∧
        AIService.extract_confidence_score text ≤ 100) ∧
    (∀ (rid cid : String) (vs : ValidationStatus) (conf cost : ℚ) (pt : ℤ)
        (txt : String) (checks : List ComplianceCheck) (req : Bool)
        (bm : BusinessMetrics) (r : ValidationResult),
        mkValidationResult rid cid vs conf cost pt txt checks req bm = some r →
        0 ≤ r.confidence_score ∧ r.confidence_score ≤ 100) := by
  constructor
  · intro text
    unfold AIService.extract_confidence_score
    cases h : searchConfidence (strToLower text).toList with
    | some v =>
      simp only [h]
      exact ⟨le_min (by norm_num) (le_max_left 0 v), min_le_left _ _⟩
    | none =>
      simp only [h]
      have hs : ((strong_indicators.filter
          (fun ind => containsSub (strToLower text) ind)).length ≤ 4) := by
        simpa [strong_indicators] using
          List.length_filter_le (fun ind => containsSub (strToLower text) ind)
            strong_indicators
      have hw : ((weak_indicators.filter
          (fun ind => containsSub (strToLower text) ind)).length ≤ 4) := by
        simpa [weak_indicators] using
          List.length_filter_le (fun ind => containsSub (strToLower text) ind)
            weak_indicators
      have hs' : ((strong_indicators.filter
          (fun ind => containsSub (strToLower text) ind)).length : ℚ) ≤ 4 := by
        exact_mod_cast hs
      have hw' : ((weak_indicators.filter
          (fun ind => containsSub (strToLower text) ind)).length : ℚ) ≤ 4 := by
        exact_mod_cast hw
      split
      · constructor
        · positivity
        · linarith
      · have h0 : (0:ℚ) ≤ ((weak_indicators.filter
            (fun ind => containsSub (strToLower text) ind)).length : ℚ) := by
          positivity
        exact ⟨by linarith, by linarith⟩
  · intro rid cid vs conf cost pt txt checks req bm r h
    unfold mkValidationResult at h
    split at h
    case isTrue hcond =>
      simp only [Bool.and_eq_true, decide_eq_true_eq] at hcond
      obtain ⟨⟨⟨⟨⟨⟨_, _⟩, hconf⟩, _⟩, _⟩, _⟩, _⟩ := hcond
      obtain rfl := Option.some.inj h
      exact round1_bounds conf hconf.1 hconf.2
    case isFalse => simp at h

/-- C4 witness: the empty reasoning text evaluates to confidence 60, and
the demonstration validation result has its confidence inside `[0,100]`. -/
theorem C4_confidence_in_range_witness :
    (0 ≤ AIService.extract_confidence_score "" ∧
      AIService.extract_confidence_score "" ≤ 100) ∧
    (0 ≤ demoResult.confidence_score ∧ demoResult.confidence_score ≤ 100) :=
  ⟨C4_confidence_in_range.1 "",
    C4_confidence_in_range.2 "RESULT_20250101_001" "CLAIM_20250101_001"
      ValidationStatus.approved 88
      (20 - demoClaimProcessing.get_estimated_processing_cost) 1000 "ok"
      [demoCheck] false demoResult.business_metrics demoResult
      (by
        unfold mkValidationResult
        rw [if_pos]
        · rfl
        · simp only [Bool.and_eq_true, decide_eq_true_eq]
          refine ⟨⟨⟨⟨⟨⟨?_, ?_⟩, ?_⟩, ?_⟩, ?_⟩, ?_⟩, ?_⟩
          · decide
          · decide
          · norm_num
          · rw [demoClaimProcessing_cost]; norm_num
          · decide
          · decide
          · decide)⟩

/-- C5: the amount admission check (field constraint `gt=0` plus the
amount-cap validator) accepts exactly the amounts in `(0, 50000]`; every
successfully constructed claim has its amount in that interval; and a
submission whose amount lies outside it is answered with the 400
invalid-claim response. -/
theorem C5_claim_amount_validation :
    (∀ v : ℚ, claimAmountCheck v = some v ↔ 0 < v ∧ v ≤ 50000) ∧
    (∀ (i : ClaimInput) (c : HealthcareClaim), mkHealthcareClaim i = some c →
      0 < c.claim_amount ∧ c.claim_amount ≤ 50000) ∧
    (∀ (i : ClaimInput) (ai : AIOutcome) (checks : List ComplianceCheck)
        (pt : ℤ) (ds : String) (settings : Settings) (st : StoreState),
      ¬(0 < i.claim_amount ∧ i.claim_amount ≤ 50000) →
      (handle_claim_submission i ai checks pt ds settings st).1 =
        create_error_response 400 "Invalid claim data") := by
  refine ⟨?_, ?_, ?_⟩
  · intro v
    unfold claimAmountCheck
    split
    case isTrue h =>
      simp only [reduceCtorEq, false_iff]
      rintro ⟨h1, -⟩
      linarith
    case isFalse h =>
      split
      case isTrue h2 =>
        simp only [reduceCtorEq, false_iff]
        rintro ⟨-, h3⟩
        linarith
      case isFalse h2 =>
        constructor
        · intro _
          exact ⟨lt_of_not_le h, not_lt.mp h2⟩
        · intro _
          rfl
  · intro i c h
    unfold mkHealthcareClaim at h
    split at h
    case isTrue hcond =>
      simp only [Bool.and_eq_true] at hcond
      have hamt := (claimAmountCheck_isSome i.claim_amount).mp hcond.2
      split at h
      case h_1 => obtain rfl := Option.some.inj h; exact hamt
      case h_2 => simp at h
    case isFalse => simp at h
  · intro i ai checks pt ds settings st h
    have hmk : mkHealthcareClaim i = none := by
      unfold mkHealthcareClaim
      rw [if_neg]
      intro hcond
      simp only [Bool.and_eq_true] at hcond
      exact h ((claimAmountCheck_isSome i.claim_amount).mp hcond.2)
    unfold handle_claim_submission
    rw [hmk]

/-- C5 witness: amount 250 is accepted, the demonstration claim satisfies
the amount invariant, and a submission with amount 60000 is rejected with
the 400 invalid-claim response. -/
theorem C5_claim_amount_validation_witness :
    claimAmountCheck 250 = some 250 ∧
    (0 < demoClaim.claim_amount ∧ demoClaim.claim_amount ≤ 50000) ∧
    (handle_claim_submission { demoInput with claim_amount := 60000 } demoAI
        [demoCheck] 1000 "20250101" defaultSettings emptyStore).1 =
      create_error_response 400 "Invalid claim data" :=
  ⟨(C5_claim_amount_validation.1 250).mpr (by norm_num),
    C5_claim_amount_validation.2.1 demoInput demoClaim (by rfl),
    C5_claim_amount_validation.2.2 { demoInput with claim_amount := 60000 }
      demoAI [demoCheck] 1000 "20250101" defaultSettings emptyStore
      (by norm_num [demoInput])⟩

/-- C6 (code bug): no submission ever completes successfully, so the
claimed submit-then-fetch property has no instance.  Every submission is
answered with the 400 invalid-claim response (parse failure) or the 500
submission-failed response (the `AttributeError` at
claims_validator.py:104, raised while evaluating `claim.priority.value`
for the log call on the pydantic-parsed claim), and in the 500 case
nothing is stored, so the immediately following fetch of the claim id
answers 404.  The fully valid `demoInput` exhibits the 500 path
concretely. -/
theorem C6_submission_always_fails :
    (∀ (rd : ClaimInput) (ai : AIOutcome) (checks : List ComplianceCheck)
        (pt : ℤ) (ds : String) (settings : Settings) (st : StoreState),
      (handle_claim_submission rd ai checks pt ds settings st).1 =
          create_error_response 400 "Invalid claim data" ∨
      (handle_claim_submission rd ai checks pt ds settings st).1 =
          create_error_response 500 "Claim submission failed") ∧
    (handle_claim_submission demoInput demoAI [demoCheck] 1000 "20250101"
        defaultSettings emptyStore).1 =
      create_error_response 500 "Claim submission failed" ∧
    (handle_claim_submission demoInput demoAI [demoCheck] 1000 "20250101"
        defaultSettings emptyStore).2 = emptyStore ∧
    handle_claim_status_request "CLAIM_20250101_001"
        (handle_claim_submission demoInput demoAI [demoCheck] 1000 "20250101"
          defaultSettings emptyStore).2 =
      create_error_response 404
        ("Claim " ++ "CLAIM_20250101_001" ++ " not found") := by
  refine ⟨?_, ?_, rfl, rfl⟩
  · intro rd ai checks pt ds settings st
    unfold handle_claim_submission
    cases mkHealthcareClaim rd with
    | none => exact Or.inl rfl
    | some c => exact Or.inr rfl
  · have hmk : mkHealthcareClaim demoInput = some demoClaim := by rfl
    unfold handle_claim_submission
    rw [hmk]

/-- C7: fetching a claim identifier that is absent from the claims store
yields a 404 response whose message contains the text "not found". -/
theorem C7_unknown_claim_404 (claim_id : String) (st : StoreState)
    (h : st.claims claim_id = none) :
    handle_claim_status_request claim_id st =
      create_error_response 404 ("Claim " ++ claim_id ++ " not found") ∧
    ∃ pre post : String,
      "Claim " ++ claim_id ++ " not found" = pre ++ "not found" ++ post := by
  constructor
  · unfold handle_claim_status_request get_claim
    rw [h]
  · refine ⟨"Claim " ++ claim_id ++ " ", "", ?_⟩
    have h1 : (" " : String) ++ "not found" = " not found" := rfl
    rw [String.append_empty, String.append_assoc, String.append_assoc, h1,
      ← String.append_assoc]

/-- C7 witness: fetching an id from the empty store gives the 404
response. -/
theorem C7_unknown_claim_404_witness :
    handle_claim_status_request "CLAIM_19990101_001" emptyStore =
      create_error_response 404 ("Claim " ++ "CLAIM_19990101_001" ++ " not found") ∧
    ∃ pre post : String,
      "Claim " ++ "CLAIM_19990101_001" ++ " not found" =
        pre ++ "not found" ++ post :=
  C7_unknown_claim_404 "CLAIM_19990101_001" emptyStore rfl

/-- C8 counterexample: a `record_cost` call whose new session total
reaches the warning threshold raises `TypeError` (the structlog-style
keyword arguments hit the stdlib logger) instead of logging a warning and
returning; the accumulation itself still happens.  So `record_cost` does
raise and does block further processing at the threshold crossing. -/
theorem C8_record_cost_raises_at_threshold :
    (record_cost defaultSettings (fun _ => none) "DEMO_SESSION" "openai"
        45 "get_medical_reasoning").2 = Except.error PyError.typeError ∧
    ((record_cost defaultSettings (fun _ => none) "DEMO_SESSION" "openai"
        45 "get_medical_reasoning").1 "DEMO_SESSION").map
      SessionCosts.total_cost = some 45 := by
  constructor
  · simp only [record_cost]
    norm_num [defaultSettings]
  · simp only [record_cost]
    norm_num

/-- C8 amended: each `record_cost` call adds exactly the recorded amount
to the total of the named session (initialized to 0 when absent), and
the accumulation persists; but at the threshold crossings nothing is
logged: the call raises `TypeError` exactly when the new total has
reached the warning threshold or, failing that, the budget limit
(`logger.warning` / `logger.error` receive structlog-style keyword
arguments on a stdlib logger with WARNING and ERROR enabled), and it
returns normally exactly when the new total is below both. -/
theorem C8_record_cost_amended (settings : Settings)
    (tracking : String → Option SessionCosts) (sid ct : String)
    (amount : ℚ) (op : String) :
    (((record_cost settings tracking sid ct amount op).1 sid).map
        SessionCosts.total_cost =
      some (((tracking sid).getD ⟨0, [], []⟩).total_cost + amount)) ∧
    ((record_cost settings tracking sid ct amount op).2 =
        Except.error PyError.typeError ↔
      (((tracking sid).getD ⟨0, [], []⟩).total_cost + amount ≥
          settings.BUDGET_WARNING_THRESHOLD_USD ∨
        ((tracking sid).getD ⟨0, [], []⟩).total_cost + amount ≥
          settings.MAX_DEMO_BUDGET_USD)) ∧
    ((record_cost settings tracking sid ct amount op).2 = Except.ok () ↔
      (((tracking sid).getD ⟨0, [], []⟩).total_cost + amount <
          settings.BUDGET_WARNING_THRESHOLD_USD ∧
        ((tracking sid).getD ⟨0, [], []⟩).total_cost + amount <
          settings.MAX_DEMO_BUDGET_USD)) := by
  unfold record_cost
  dsimp only []
  refine ⟨by simp, ?_, ?_⟩
  · split_ifs <;> simp_all [not_le, le_of_lt]
  · split_ifs <;> simp_all [not_le]

/-- C9: the estimated processing cost of every claim lies in
`[0.05, 0.105]`, and `calculate_business_metrics` always succeeds with
`manual_review_cost_avoided = 20` minus that cost, a strictly positive
value in `[19.895, 19.95]`. -/
theorem C9_processing_cost_bounds (claim : HealthcareClaim)
    (confidence_score : ℚ) :
    (5/100 : ℚ) ≤ claim.get_estimated_processing_cost ∧
    claim.get_estimated_processing_cost ≤ 105/1000 ∧
    ∃ bm, calculate_business_metrics claim confidence_score = some bm ∧
      bm.manual_review_cost_avoided = 20 - claim.get_estimated_processing_cost ∧
      0 < bm.manual_review_cost_avoided ∧
      (3979/200 : ℚ) ≤ bm.manual_review_cost_avoided ∧
      bm.manual_review_cost_avoided ≤ 399/20 := by
  have hcases := get_estimated_processing_cost_cases claim
  have hlo : (5/100 : ℚ) ≤ claim.get_estimated_processing_cost := by
    rcases hcases with h | h | h | h | h | h <;> rw [h] <;> norm_num
  have hhi : claim.get_estimated_processing_cost ≤ 105/1000 := by
    rcases hcases with h | h | h | h | h | h <;> rw [h] <;> norm_num
  exact ⟨hlo, hhi,
    { manual_review_cost_avoided := 20 - claim.get_estimated_processing_cost,
      processing_time_reduction := 999/10,
      accuracy_improvement := min 25 (max 0 (confidence_score - 825/10)) },
    calculate_business_metrics_spec claim confidence_score (by linarith),
    rfl, by linarith, by linarith, by linarith⟩

/-- C10: for every claim with amount above 20000, the mock selector
returns (before touching the priority) the experimental scenario, whose
status string is `requires_human_review`; that string is not a
`ValidationStatus` member value, so the enum conversion fails and
`_get_mock_medical_reasoning` raises a `ValueError` instead of
returning. -/
theorem C10_mock_high_amount_raises (claim : HealthcareClaim)
    (h : claim.claim_amount > 20000) :
    AIService.select_mock_scenario claim =
      Except.ok AIService.scenario_experimental ∧
    AIService.scenario_experimental.status = "requires_human_review" ∧
    ValidationStatus.ofString "requires_human_review" = none ∧
    AIService.get_mock_medical_reasoning claim =
      Except.error PyError.valueError := by
  have hsel : AIService.select_mock_scenario claim =
      Except.ok AIService.scenario_experimental := by
    unfold AIService.select_mock_scenario
    rw [if_pos (by linarith : claim.claim_amount > 10000), if_pos h]
  refine ⟨hsel, rfl, rfl, ?_⟩
  unfold AIService.get_mock_medical_reasoning
  rw [hsel]
  rfl

/-- C10 witness: a claim of amount 25000 makes the mock reasoning step
fail with the enum `ValueError`. -/
theorem C10_mock_high_amount_raises_witness :
    AIService.select_mock_scenario { demoClaim with claim_amount := 25000 } =
      Except.ok AIService.scenario_experimental ∧
    AIService.scenario_experimental.status = "requires_human_review" ∧
    ValidationStatus.ofString "requires_human_review" = none ∧
    AIService.get_mock_medical_reasoning { demoClaim with claim_amount := 25000 } =
      Except.error PyError.valueError :=
  C10_mock_high_amount_raises { demoClaim with claim_amount := 25000 }
    (by norm_num [demoClaim])

end BiriGov
